import Mathlib

/-!
# xray-mobile.go: instance lifecycle and outbound latency probe

A shallow embedding of `src/xray-mobile.go` (package `XRay`).

The Go file is a thin layer over xray-core and `net/http`.  Everything the
file calls but does not define is taken as a field of `Env`:
`serial.DecodeJSONConfig`, `(*conf.Config).Build`, `core.New`,
`(*core.Instance).Start`, `http.NewRequestWithContext` and
`(*http.Client).Do` together with the clock.  The process state the file
reads and writes (the package variable `coreInstance`, the instances that
exist, the calls made on the `Logger`, the requests sent) is the record
`World`, threaded explicitly through every function.

Conventions.
* A Go `error` is identified with its description (`err.Error()`); a
  possibly-nil error is an `Option Error`, `none` being `nil`.
* A `*core.Instance` is an index into `World.instances`; `nil` is `none`.
* A run-time panic is the `Outcome.panicked` result; the world at the moment
  of the panic is still reported.
* A `Logger` is an interface value: `none` is the nil interface, `some l`
  the implementation named `l`.  A method call on the nil interface panics.
-/

namespace XRay

/-! ## Data model -/

/-- Go `error`, identified with the text returned by `err.Error()`. -/
abbrev Error := String

/-- Result of running a Go function: it returns a value, or the goroutine
panics with a run-time error. -/
inductive Outcome (α : Type) where
  | returned : α → Outcome α
  | panicked : String → Outcome α
  deriving DecidableEq, Repr

/-- A Go slice viewed from its first element: `backing` is the part of the
underlying array reachable from the slice (so `cap = backing.length`) and
`len` is the slice length. -/
structure Slice (α : Type) where
  backing : List α
  len : Nat
  deriving DecidableEq, Repr

namespace Slice

/-- Go `cap(s)`. -/
def cap {α : Type} (s : Slice α) : Nat := s.backing.length

/-- The elements `s[0], ..., s[len(s)-1]`. -/
def elems {α : Type} (s : Slice α) : List α := s.backing.take s.len

/-- Slice literal `[]T{...}`: length and capacity both equal the number of
elements. -/
def ofList {α : Type} (l : List α) : Slice α := ⟨l, l.length⟩

/-- Go simple slice expression `s[:n]`: legal when `0 <= n <= cap(s)` (the
bound is the capacity, not the length); otherwise the run-time panics with
"slice bounds out of range".  `none` is the panic. -/
def sliceTo {α : Type} (s : Slice α) (n : Nat) : Option (Slice α) :=
  if n ≤ s.cap then some ⟨s.backing, n⟩ else none

end Slice

/-- Kind of an entry of `core.Config.App`, after the comment at line 113 of
the source: `(fakedns), log, dispatcher, InboundConfig, OutboundConfig,
(stats), router, dns, (policy)`.  `other` stands for any further subsystem. -/
inductive AppKind where
  | fakeDNS
  | log
  | dispatcher
  | inboundManager
  | outboundManager
  | stats
  | router
  | dns
  | policy
  | other : Nat → AppKind
  deriving DecidableEq, Repr

/-- The part of `core.Config` the file touches: the inbound and outbound
handler lists (entries named by a tag) and the application list. -/
structure Config where
  Inbound : List String
  Outbound : List String
  App : Slice AppKind
  deriving DecidableEq, Repr

/-- Lifecycle state of a `core.Instance`. -/
inductive Lifecycle where
  | Constructed
  | Running
  | Closed
  deriving DecidableEq, Repr

/-- A `core.Instance`: the config it was built from and its lifecycle state. -/
structure Instance where
  config : Config
  state : Lifecycle
  deriving DecidableEq, Repr

/-- An `http.Response` as far as the file reads it. -/
structure Response where
  StatusCode : Nat
  Status : String
  deriving DecidableEq, Repr

/-- Raw configuration bytes (`[]byte`). -/
abbrev RawConfig := List Nat

/-- A value of the interface type `Logger` (lines 24-26): `none` is the nil
interface value, `some l` an implementation, named by an identifier, whose
`LogInput` calls are recorded in `World.logged`. -/
abbrev Logger := Option Nat

/-- The external collaborators of the file.

* `DecodeJSONConfig`: `serial.DecodeJSONConfig`, producing a decoded document
  (named by a number) or an error.
* `Build`: `(*conf.Config).Build`.
* `New`: `core.New`; `none` means an instance was constructed.
* `Start`: `(*core.Instance).Start` on the given instance; `none` means it
  started.
* `afterFailedStart`: the lifecycle state in which a failed `Start` leaves the
  instance.
* `NewRequest`: `http.NewRequestWithContext(ctx, "GET", url, nil)`; `none`
  means it returned a nil request and an error (the URL does not parse).
* `Do`: `(*http.Client).Do` through the dialer bound to the given instance,
  for a request to the given URL started at the given clock reading.  It
  yields the response or the transport error, and the clock reading (in
  nanoseconds) at which `time.Since` is evaluated afterwards. -/
structure Env where
  DecodeJSONConfig : RawConfig → Except Error Nat
  Build : Nat → Except Error Config
  New : Config → Option Error
  Start : Option Instance → Option Error
  afterFailedStart : Lifecycle
  NewRequest : String → Option String
  Do : Option Instance → String → Int → Except Error Response × Int

/-- Process state.

* `coreInstance`: the package variable of line 28.
* `instances`: every instance constructed so far; a pointer is an index.
* `logged`: the `LogInput` calls made so far, oldest first.
* `requests`: the HTTP requests sent so far (instance, URL), oldest first.
* `now`: the reading of the monotonic clock, in nanoseconds. -/
structure World where
  coreInstance : Option Nat
  instances : List Instance
  logged : List (Nat × String)
  requests : List (Nat × String)
  now : Int
  deriving DecidableEq, Repr

namespace World

/-- State of a freshly loaded process: `coreInstance` is nil. -/
def initial : World :=
  { coreInstance := none, instances := [], logged := [], requests := [], now := 0 }

/-- Call `logger.LogInput(s)`.  On the nil interface value the call panics
(nil pointer dereference): `none`. -/
def LogInput (w : World) (logger : Logger) (s : String) : Option World :=
  match logger with
  | none => none
  | some l => some { w with logged := w.logged ++ [(l, s)] }

/-- Allocate the instance returned by a successful `core.New`; the pointer is
the index of the new cell. -/
def alloc (w : World) (cfg : Config) : World × Nat :=
  ({ w with instances := w.instances ++ [⟨cfg, Lifecycle.Constructed⟩] }, w.instances.length)

/-- The instance list with the lifecycle state of cell `i` replaced by `s`;
a list without cell `i` is returned as it is. -/
def setStateAt : List Instance → Nat → Lifecycle → List Instance
  | [], _, _ => []
  | inst :: rest, 0, s => { inst with state := s } :: rest
  | inst :: rest, i + 1, s => inst :: setStateAt rest i s

/-- Set the lifecycle state of the instance behind pointer `i`. -/
def setState (w : World) (i : Nat) (s : Lifecycle) : World :=
  { w with instances := setStateAt w.instances i s }

/-- Lifecycle state of the instance behind pointer `i`. -/
def stateOf (w : World) (i : Nat) : Option Lifecycle :=
  w.instances[i]?.map Instance.state

/-- Every pointer held by the process refers to an allocated instance. -/
def WF (w : World) : Prop :=
  match w.coreInstance with
  | none => True
  | some i => i < w.instances.length

instance (w : World) : Decidable w.WF := by
  unfold WF
  cases w.coreInstance <;> infer_instance

end World

/-! ## Instance methods (xray-core) -/

/-- Modelled from the spec: the method `inst.Start()` of xray-core on a
non-nil instance, after the state machine Constructed → Running → Closed.
On success the instance is Running; on failure it is left in the state
`env.afterFailedStart`.  The error, if any, is returned.  No other instance
is touched. -/
def Instance.Start (env : Env) (i : Nat) (w : World) : World × Option Error :=
  match env.Start w.instances[i]? with
  | none => (w.setState i Lifecycle.Running, none)
  | some err => (w.setState i env.afterFailedStart, some err)

/-- Modelled from the spec: the method `inst.Close()` of xray-core on a
non-nil instance.  The instance is Closed afterwards, whatever its state
was, so closing a Closed instance changes nothing.  No other instance is
touched. -/
def Instance.Close (i : Nat) (w : World) : World :=
  w.setState i Lifecycle.Closed

/-! ## The functions of xray-mobile.go -/

/-- Lines 70-94.  Each `logger.LogInput` call panics when `logger` is the
nil interface value; the one at line 89 comes before the assignment of
line 92. -/
def StartXray (env : Env) (config : RawConfig) (logger : Logger) (w : World) :
    World × Outcome (Option Error) :=
  match env.DecodeJSONConfig config with
  | .error err =>
    match w.LogInput logger ("Config load error: " ++ err) with
    | none => (w, .panicked "invalid memory address or nil pointer dereference")
    | some w1 => (w1, .returned (some err))
  | .ok conf =>
    match env.Build conf with
    | .error err => (w, .returned (some err))
    | .ok pbConfig =>
      match env.New pbConfig with
      | some err =>
        match w.LogInput logger ("Create XRay error: " ++ err) with
        | none => (w, .panicked "invalid memory address or nil pointer dereference")
        | some w1 => (w1, .returned (some err))
      | none =>
        let (w1, inst) := w.alloc pbConfig
        let (w2, err) := Instance.Start env inst w1
        match err with
        | some e =>
          match w2.LogInput logger ("Start XRay error: " ++ e) with
          | none => (w2, .panicked "invalid memory address or nil pointer dereference")
          | some w3 => ({ w3 with coreInstance := some inst }, .returned none)
        | none => ({ w2 with coreInstance := some inst }, .returned none)

/-- Lines 96-98.  `coreInstance.Close()` on a nil pointer dereferences it. -/
def StopXray (w : World) : World × Outcome Unit :=
  match w.coreInstance with
  | none => (w, .panicked "invalid memory address or nil pointer dereference")
  | some i => (Instance.Close i w, .returned ())

/-- Whole milliseconds of `time.Since(start)` when the clock reads `t`:
`Duration.Milliseconds` is the nanosecond count divided by 1e6, truncated
toward zero.  Readings of the monotonic clock are far from the int64 range,
so the saturation of `time.Sub` plays no part. -/
def sinceMilliseconds (start t : Int) : Int := (t - start).tdiv 1000000

/-- Lines 126-165. -/
def measureInstDelay (env : Env) (inst : Option Nat) (url : String) (w : World) :
    World × Outcome (Int × Option Error) :=
  match inst with
  | none => (w, .returned (-1, some "core instance nil"))
  | some i =>
    let url := if url.length ≤ 0 then "https://www.google.com/generate_204" else url
    -- the error of NewRequestWithContext is discarded
    let req := env.NewRequest url
    let start := w.now
    match req with
    | none =>
      -- c.Do(nil) reads req.URL
      (w, .panicked "invalid memory address or nil pointer dereference")
    | some r =>
      let (res, t) := env.Do w.instances[i]? r start
      let w1 := { w with requests := w.requests ++ [(i, r)], now := t }
      match res with
      | .error err => (w1, .returned (-1, some err))
      | .ok resp =>
        if resp.StatusCode ≠ 200 ∧ resp.StatusCode ≠ 204 then
          (w1, .returned (-1, some ("status != 20x: " ++ resp.Status)))
        else
          (w1, .returned (sinceMilliseconds start t, none))

/-- Lines 111-115: the config handed to `core.New` by the probe.  `none` is
the panic of `pbConfig.App[:5]`. -/
def reduceForProbe (pbConfig : Config) : Option Config :=
  let pbConfig := { pbConfig with Inbound := [] }
  match pbConfig.App.sliceTo 5 with
  | none => none
  | some app => some { pbConfig with App := app }

/-- Lines 101-124. -/
def MeasureOutboundDelay (env : Env) (config : RawConfig) (url : String) (w : World) :
    World × Outcome (Int × Option Error) :=
  match env.DecodeJSONConfig config with
  | .error err => (w, .returned (-1, some err))
  | .ok conf =>
    match env.Build conf with
    | .error err => (w, .returned (-1, some err))
    | .ok pbConfig =>
      match reduceForProbe pbConfig with
      | none => (w, .panicked "slice bounds out of range [:5]")
      | some pbConfig =>
        match env.New pbConfig with
        | some err => (w, .returned (-1, some err))
        | none =>
          let (w1, inst) := w.alloc pbConfig
          -- the error of inst.Start() is discarded
          let w2 := (Instance.Start env inst w1).1
          measureInstDelay env (some inst) url w2

/-- The lifecycle state in which `Start` leaves an instance. -/
def stateAfterStart (env : Env) (o : Option Instance) : Lifecycle :=
  match env.Start o with
  | none => Lifecycle.Running
  | some _ => env.afterFailedStart

/-- The application list in the order documented at line 113 of the source:
`(fakedns), log, dispatcher, InboundConfig, OutboundConfig, (stats), router,
dns, (policy)`, the bracketed entries being present or not. -/
def emissionOrder (fakeDNS stats policy : Bool) : List AppKind :=
  (if fakeDNS then [AppKind.fakeDNS] else []) ++
  [AppKind.log, AppKind.dispatcher, AppKind.inboundManager, AppKind.outboundManager] ++
  (if stats then [AppKind.stats] else []) ++
  [AppKind.router, AppKind.dns] ++
  (if policy then [AppKind.policy] else [])

/-! ## Concrete environments, used to run the code on explicit inputs -/

/-- A structured config with one inbound, one outbound and the application
list of a document that has routing and DNS sections and no optional
subsystem. -/
def sampleConfig : Config :=
  { Inbound := ["socks-in"], Outbound := ["proxy"],
    App := Slice.ofList (emissionOrder false false false) }

/-- An environment in which every stage succeeds and the GET is answered
with status 204 after 35 ms. -/
def envOK : Env :=
  { DecodeJSONConfig := fun _ => .ok 0
    Build := fun _ => .ok sampleConfig
    New := fun _ => none
    Start := fun _ => none
    afterFailedStart := Lifecycle.Running
    NewRequest := fun url => some url
    Do := fun _ _ t => (.ok ⟨204, "204 No Content"⟩, t + 35000000) }

/-- As `envOK`, but the document does not decode. -/
def envDecodeFails : Env :=
  { envOK with DecodeJSONConfig := fun _ => .error "invalid character" }

/-- As `envOK`, but `Build` rejects the decoded document. -/
def envBuildFails : Env :=
  { envOK with Build := fun _ => .error "unknown outbound protocol" }

/-- As `envOK`, but `core.New` fails. -/
def envNewFails : Env :=
  { envOK with New := fun _ => some "duplicate tag" }

/-- As `envOK`, but `Start` fails on every instance. -/
def envStartFails : Env :=
  { envOK with Start := fun _ => some "address already in use" }

/-- As `envOK`, but the GET is answered with status 404. -/
def envNotFound : Env :=
  { envOK with Do := fun _ _ t => (.ok ⟨404, "404 Not Found"⟩, t + 35000000) }

/-- As `envOK`, but `Build` emits only log, dispatcher, inbound manager and
outbound manager (a document without routing and DNS sections): four entries
in a slice of capacity four. -/
def envShortApp : Env :=
  { envOK with
    Build := fun _ => .ok
      { Inbound := [], Outbound := ["direct"],
        App := Slice.ofList [AppKind.log, AppKind.dispatcher, AppKind.inboundManager,
          AppKind.outboundManager] } }

/-- As `envOK`, but the URL ":" does not parse (missing protocol scheme), so
`http.NewRequestWithContext` returns a nil request for it. -/
def envBadURL : Env :=
  { envOK with NewRequest := fun url => if url = ":" then none else some url }

/-- A process whose slot holds a Running instance (pointer 0). -/
def worldRunning : World :=
  { coreInstance := some 0, instances := [⟨sampleConfig, Lifecycle.Running⟩],
    logged := [], requests := [], now := 0 }

/-! ## Auxiliary facts about the instance table -/

theorem setStateAt_length (l : List Instance) (i : Nat) (s : Lifecycle) :
    (World.setStateAt l i s).length = l.length := by
  induction l generalizing i with
  | nil => simp [World.setStateAt]
  | cons a t ih => cases i <;> simp [World.setStateAt, ih]

theorem setStateAt_getElem?_ne (l : List Instance) (i j : Nat) (s : Lifecycle) (h : j ≠ i) :
    (World.setStateAt l i s)[j]? = l[j]? := by
  induction l generalizing i j with
  | nil => simp [World.setStateAt]
  | cons a t ih =>
    cases i with
    | zero =>
      cases j with
      | zero => exact absurd rfl h
      | succ j => simp [World.setStateAt]
    | succ i =>
      cases j with
      | zero => simp [World.setStateAt]
      | succ j =>
        have hji : j ≠ i := fun e => h (by rw [e])
        simp [World.setStateAt, ih i j hji]

theorem setStateAt_getElem?_self (l : List Instance) (i : Nat) (s : Lifecycle) :
    (World.setStateAt l i s)[i]? = l[i]?.map (fun inst => { inst with state := s }) := by
  induction l generalizing i with
  | nil => simp [World.setStateAt]
  | cons a t ih => cases i <;> simp [World.setStateAt, ih]

theorem setStateAt_idem (l : List Instance) (i : Nat) (s : Lifecycle) :
    World.setStateAt (World.setStateAt l i s) i s = World.setStateAt l i s := by
  induction l generalizing i with
  | nil => simp [World.setStateAt]
  | cons a t ih => cases i <;> simp [World.setStateAt, ih]

theorem Start_world (env : Env) (i : Nat) (w : World) :
    (Instance.Start env i w).1 = w.setState i (stateAfterStart env w.instances[i]?) := by
  unfold Instance.Start stateAfterStart
  cases env.Start w.instances[i]? <;> rfl

theorem Start_error (env : Env) (i : Nat) (w : World) :
    (Instance.Start env i w).2 = env.Start w.instances[i]? := by
  unfold Instance.Start
  cases env.Start w.instances[i]? <;> rfl

theorem alloc_getElem?_old (w : World) (cfg : Config) (j : Nat) (h : j < w.instances.length) :
    (w.alloc cfg).1.instances[j]? = w.instances[j]? := by
  simp [World.alloc, List.getElem?_append_left h]

theorem alloc_getElem?_new (w : World) (cfg : Config) :
    (w.alloc cfg).1.instances[w.instances.length]? = some ⟨cfg, Lifecycle.Constructed⟩ := by
  simp [World.alloc]

theorem measureInstDelay_frame (env : Env) (inst : Option Nat) (url : String) (w : World) :
    (measureInstDelay env inst url w).1.coreInstance = w.coreInstance ∧
    (measureInstDelay env inst url w).1.instances = w.instances ∧
    (measureInstDelay env inst url w).1.logged = w.logged := by
  cases inst with
  | none => simp [measureInstDelay]
  | some i =>
    simp only [measureInstDelay]
    split
    · simp
    · split
      · simp
      · split <;> simp

theorem MeasureOutboundDelay_world (env : Env) (config : RawConfig) (url : String) (w : World) :
    (MeasureOutboundDelay env config url w).1.coreInstance = w.coreInstance ∧
    (MeasureOutboundDelay env config url w).1.logged = w.logged ∧
    ((MeasureOutboundDelay env config url w).1.instances = w.instances ∨
      ∃ pb, (MeasureOutboundDelay env config url w).1.instances =
        World.setStateAt (w.instances ++ [⟨pb, Lifecycle.Constructed⟩]) w.instances.length
          (stateAfterStart env (some ⟨pb, Lifecycle.Constructed⟩))) := by
  cases hd : env.DecodeJSONConfig config with
  | error e => simp [MeasureOutboundDelay, hd]
  | ok conf =>
    cases hb : env.Build conf with
    | error e => simp [MeasureOutboundDelay, hd, hb]
    | ok pb =>
      cases hr : reduceForProbe pb with
      | none => simp [MeasureOutboundDelay, hd, hb, hr]
      | some pb1 =>
        cases hn : env.New pb1 with
        | some e => simp [MeasureOutboundDelay, hd, hb, hr, hn]
        | none =>
          have hm := measureInstDelay_frame env (some w.instances.length) url
            (Instance.Start env w.instances.length (w.alloc pb1).1).1
          simp only [MeasureOutboundDelay, hd, hb, hr, hn]
          refine ⟨?_, ?_, Or.inr ⟨pb1, ?_⟩⟩
          · rw [show (w.alloc pb1).2 = w.instances.length from rfl, hm.1, Start_world]
            rfl
          · rw [show (w.alloc pb1).2 = w.instances.length from rfl, hm.2.2, Start_world]
            rfl
          · rw [show (w.alloc pb1).2 = w.instances.length from rfl, hm.2.1, Start_world,
              alloc_getElem?_new]
            rfl

/-! ## Well-formedness of the slot is an invariant -/

theorem WF_initial : World.initial.WF := by
  decide

theorem StartXray_WF (env : Env) (config : RawConfig) (logger : Logger) (w : World)
    (h : w.WF) : (StartXray env config logger w).1.WF := by
  cases hd : env.DecodeJSONConfig config with
  | error e => cases logger <;> simpa [StartXray, hd, World.LogInput, World.WF] using h
  | ok conf =>
    cases hb : env.Build conf with
    | error e => simpa [StartXray, hd, hb, World.WF] using h
    | ok pb =>
      cases hn : env.New pb with
      | some e => cases logger <;> simpa [StartXray, hd, hb, hn, World.LogInput, World.WF] using h
      | none =>
        cases hs : env.Start (some ⟨pb, Lifecycle.Constructed⟩) with
        | none =>
          simp [StartXray, hd, hb, hn, Instance.Start, World.alloc, hs, World.setState,
            World.WF, setStateAt_length]
        | some e =>
          cases logger with
          | some l =>
            simp [StartXray, hd, hb, hn, Instance.Start, World.alloc, hs, World.setState,
              World.LogInput, World.WF, setStateAt_length]
          | none =>
            unfold World.WF at h ⊢
            simp only [StartXray, hd, hb, hn, Instance.Start, World.alloc, hs, World.setState,
              World.LogInput, setStateAt_length, List.getElem?_concat_length,
              List.length_append, List.length_singleton]
            cases hc : w.coreInstance with
            | none => trivial
            | some i =>
              rw [hc] at h
              show i < w.instances.length + 1
              omega

theorem StopXray_WF (w : World) (h : w.WF) : (StopXray w).1.WF := by
  cases hc : w.coreInstance with
  | none => simp [StopXray, hc, World.WF]
  | some i =>
    simpa [StopXray, hc, World.WF, Instance.Close, World.setState, setStateAt_length]
      using h

theorem MeasureOutboundDelay_WF (env : Env) (config : RawConfig) (url : String) (w : World)
    (h : w.WF) : (MeasureOutboundDelay env config url w).1.WF := by
  obtain ⟨hc, _, hi⟩ := MeasureOutboundDelay_world env config url w
  unfold World.WF at h ⊢
  rw [hc]
  cases hs : w.coreInstance with
  | none => trivial
  | some i =>
    rw [hs] at h
    rcases hi with hi | ⟨pb, hi⟩
    · simpa [hi] using h
    · simp only [hi, setStateAt_length, List.length_append, List.length_singleton]
      omega

/-! ## StartXray and the active-instance slot -/

/-- C2, refuted at a concrete input: the slot holds Running instance 0, the
logger is the nil interface value, decoding, building and construction
succeed (a new cell, pointer 1, is allocated) and `Start` fails.  The log
call of line 89 panics before the assignment of line 92: the slot still
holds pointer 0, not the newly constructed instance. -/
theorem StartXray_nil_logger_keeps_slot :
    envStartFails.New sampleConfig = none ∧
    envStartFails.Start (some ⟨sampleConfig, Lifecycle.Constructed⟩)
      = some "address already in use" ∧
    (StartXray envStartFails [123, 125] none worldRunning).2
      = .panicked "invalid memory address or nil pointer dereference" ∧
    (StartXray envStartFails [123, 125] none worldRunning).1.instances.length = 2 ∧
    (StartXray envStartFails [123, 125] none worldRunning).1.coreInstance = some 0 ∧
    (StartXray envStartFails [123, 125] none worldRunning).1.coreInstance ≠ some 1 := by
  decide

/-- C2 as amended: whatever the slot held before and whatever the logger,
`StartXray` leaves the slot and every existing instance untouched when
decoding, building or construction fails.  When all three succeed and the
logger is not nil or `Start` succeeds, the slot afterwards points at the
newly constructed cell, built from the structured config, whether or not its
`Start` succeeded; the previous occupant is no longer in the slot, and no
previously existing cell, the previous occupant included, has changed state
(it was not closed).  When all three succeed, `Start` fails and the logger
is nil, the call panics and the slot and every previously existing cell are
as they were. -/
theorem StartXray_slot (env : Env) (config : RawConfig) (logger : Logger) (w : World)
    (hwf : w.WF) :
    (∀ e, env.DecodeJSONConfig config = .error e →
      (StartXray env config logger w).1.coreInstance = w.coreInstance ∧
      (StartXray env config logger w).1.instances = w.instances) ∧
    (∀ conf e, env.DecodeJSONConfig config = .ok conf → env.Build conf = .error e →
      (StartXray env config logger w).1.coreInstance = w.coreInstance ∧
      (StartXray env config logger w).1.instances = w.instances) ∧
    (∀ conf pb e, env.DecodeJSONConfig config = .ok conf → env.Build conf = .ok pb →
      env.New pb = some e →
      (StartXray env config logger w).1.coreInstance = w.coreInstance ∧
      (StartXray env config logger w).1.instances = w.instances) ∧
    (∀ conf pb, env.DecodeJSONConfig config = .ok conf → env.Build conf = .ok pb →
      env.New pb = none →
      (logger ≠ none ∨ env.Start (some ⟨pb, Lifecycle.Constructed⟩) = none) →
      (StartXray env config logger w).1.coreInstance = some w.instances.length ∧
      (StartXray env config logger w).1.instances[w.instances.length]?.map Instance.config
        = some pb ∧
      (StartXray env config logger w).1.coreInstance ≠ w.coreInstance ∧
      ∀ j, j < w.instances.length →
        (StartXray env config logger w).1.instances[j]? = w.instances[j]?) ∧
    (∀ conf pb e, env.DecodeJSONConfig config = .ok conf → env.Build conf = .ok pb →
      env.New pb = none → env.Start (some ⟨pb, Lifecycle.Constructed⟩) = some e →
      logger = none →
      (∃ msg, (StartXray env config logger w).2 = .panicked msg) ∧
      (StartXray env config logger w).1.coreInstance = w.coreInstance ∧
      ∀ j, j < w.instances.length →
        (StartXray env config logger w).1.instances[j]? = w.instances[j]?) := by
  refine ⟨?_, ?_, ?_, ?_, ?_⟩
  · intro e hd
    cases logger <;> simp [StartXray, hd, World.LogInput]
  · intro conf e hd hb
    simp [StartXray, hd, hb]
  · intro conf pb e hd hb hn
    cases logger <;> simp [StartXray, hd, hb, hn, World.LogInput]
  · intro conf pb hd hb hn hor
    have hne : some w.instances.length ≠ w.coreInstance := by
      intro h
      unfold World.WF at hwf
      rw [← h] at hwf
      exact Nat.lt_irrefl _ hwf
    cases hs : env.Start (some ⟨pb, Lifecycle.Constructed⟩) with
    | none =>
      simp [StartXray, hd, hb, hn, Instance.Start, World.alloc, hs, World.setState,
        setStateAt_getElem?_self]
      refine ⟨hne, ?_⟩
      intro j hj
      rw [setStateAt_getElem?_ne _ _ _ _ (Nat.ne_of_lt hj), List.getElem?_append_left hj]
    | some e =>
      cases logger with
      | none =>
        rcases hor with h | h
        · exact absurd rfl h
        · rw [hs] at h
          cases h
      | some l =>
        simp [StartXray, hd, hb, hn, Instance.Start, World.alloc, hs, World.setState,
          World.LogInput, setStateAt_getElem?_self]
        refine ⟨hne, ?_⟩
        intro j hj
        rw [setStateAt_getElem?_ne _ _ _ _ (Nat.ne_of_lt hj), List.getElem?_append_left hj]
  · intro conf pb e hd hb hn hs hl
    subst hl
    simp [StartXray, hd, hb, hn, Instance.Start, World.alloc, hs, World.setState,
      World.LogInput]
    intro j hj
    rw [setStateAt_getElem?_ne _ _ _ _ (Nat.ne_of_lt hj), List.getElem?_append_left hj]

/-- C2 as amended, at a concrete input: the slot holds a Running instance,
the logger is not nil, a new instance is constructed and its `Start` fails;
afterwards the slot holds the new pointer (1) and the old occupant is still
Running. -/
theorem StartXray_slot_witness :
    worldRunning.WF ∧
    envStartFails.Start (some ⟨sampleConfig, Lifecycle.Constructed⟩) ≠ none ∧
    (StartXray envStartFails [123, 125] (some 7) worldRunning).1.coreInstance = some 1 ∧
    (StartXray envStartFails [123, 125] (some 7) worldRunning).1.instances[0]?
      = some ⟨sampleConfig, Lifecycle.Running⟩ :=
  ⟨by decide, by decide,
   ((StartXray_slot envStartFails [123, 125] (some 7) worldRunning (by decide)).2.2.2.1
      0 sampleConfig rfl rfl rfl (Or.inl (by decide))).1,
   ((StartXray_slot envStartFails [123, 125] (some 7) worldRunning (by decide)).2.2.2.1
      0 sampleConfig rfl rfl rfl (Or.inl (by decide))).2.2.2 0 (by decide)⟩

/-! ## StopXray -/

/-- C3: `StopXray` panics (nil dereference) exactly when the slot is empty;
with an occupant it returns, the slot still holds the same pointer, the
occupant is Closed and no other instance changes.  Hence it panics in the
initial state, while after a `StartXray` that returned nil a `StopXray`
returns and leaves the stored instance Closed (not Running), and a second
`StopXray` returns as well and changes nothing. -/
theorem StopXray_spec (w : World) (env : Env) (config : RawConfig) (logger : Logger) :
    ((∃ msg, (StopXray w).2 = .panicked msg) ↔ w.coreInstance = none) ∧
    (∀ i, w.coreInstance = some i →
      (StopXray w).2 = .returned () ∧
      (StopXray w).1.coreInstance = some i ∧
      (StopXray w).1.instances[i]?
        = w.instances[i]?.map (fun inst => { inst with state := Lifecycle.Closed }) ∧
      (∀ j, j ≠ i → (StopXray w).1.instances[j]? = w.instances[j]?)) ∧
    (∃ msg, (StopXray World.initial).2 = .panicked msg) ∧
    ((StartXray env config logger w).2 = .returned none →
      ∃ i,
        (StopXray (StartXray env config logger w).1).2 = .returned () ∧
        (StopXray (StartXray env config logger w).1).1.coreInstance = some i ∧
        (StopXray (StartXray env config logger w).1).1.stateOf i = some Lifecycle.Closed ∧
        (StopXray (StartXray env config logger w).1).1.stateOf i ≠ some Lifecycle.Running ∧
        (StopXray (StopXray (StartXray env config logger w).1).1).2 = .returned () ∧
        (StopXray (StopXray (StartXray env config logger w).1).1).1
          = (StopXray (StartXray env config logger w).1).1) := by
  refine ⟨?_, ?_, ?_, ?_⟩
  · cases hc : w.coreInstance <;> simp [StopXray, hc]
  · intro i hi
    refine ⟨by simp [StopXray, hi], by simp [StopXray, hi, Instance.Close, World.setState],
      by simp [StopXray, hi, Instance.Close, World.setState, setStateAt_getElem?_self], ?_⟩
    intro j hj
    simp [StopXray, hi, Instance.Close, World.setState, setStateAt_getElem?_ne _ _ _ _ hj]
  · exact ⟨_, rfl⟩
  · intro h
    cases hd : env.DecodeJSONConfig config with
    | error e => cases logger <;> simp [StartXray, hd, World.LogInput] at h
    | ok conf =>
      cases hb : env.Build conf with
      | error e => simp [StartXray, hd, hb] at h
      | ok pb =>
        cases hn : env.New pb with
        | some e => cases logger <;> simp [StartXray, hd, hb, hn, World.LogInput] at h
        | none =>
          refine ⟨w.instances.length, ?_⟩
          cases hs : env.Start (some ⟨pb, Lifecycle.Constructed⟩) with
          | none =>
            simp [StartXray, hd, hb, hn, StopXray, Instance.Close, Instance.Start, World.alloc,
              hs, World.setState, World.stateOf, setStateAt_getElem?_self, setStateAt_idem]
          | some e =>
            cases logger with
            | none =>
              simp [StartXray, hd, hb, hn, Instance.Start, World.alloc, hs, World.LogInput] at h
            | some l =>
              simp [StartXray, hd, hb, hn, StopXray, Instance.Close, Instance.Start,
                World.alloc, hs, World.setState, World.stateOf, World.LogInput,
                setStateAt_getElem?_self, setStateAt_idem]

/-- C3 at a concrete input: starting from the initial state with every stage
succeeding, `StartXray` returns nil and pointer 0 is Running; the following
`StopXray` returns with pointer 0 Closed, and a second `StopXray` returns
too. -/
theorem StopXray_spec_witness :
    (StartXray envOK [123, 125] (some 7) World.initial).2 = .returned none ∧
    (StartXray envOK [123, 125] (some 7) World.initial).1.stateOf 0 = some Lifecycle.Running ∧
    ∃ i,
      (StopXray (StartXray envOK [123, 125] (some 7) World.initial).1).2 = .returned () ∧
      (StopXray (StartXray envOK [123, 125] (some 7) World.initial).1).1.coreInstance = some i ∧
      (StopXray (StartXray envOK [123, 125] (some 7) World.initial).1).1.stateOf i
        = some Lifecycle.Closed ∧
      (StopXray (StartXray envOK [123, 125] (some 7) World.initial).1).1.stateOf i
        ≠ some Lifecycle.Running ∧
      (StopXray (StopXray (StartXray envOK [123, 125] (some 7) World.initial).1).1).2
        = .returned () ∧
      (StopXray (StopXray (StartXray envOK [123, 125] (some 7) World.initial).1).1).1
        = (StopXray (StartXray envOK [123, 125] (some 7) World.initial).1).1 :=
  ⟨by decide, by decide,
   (StopXray_spec World.initial envOK [123, 125] (some 7)).2.2.2 (by decide)⟩

/-! ## MeasureOutboundDelay and the active instance -/

/-- C9: on every exit path (returns and panics alike) `MeasureOutboundDelay`
leaves the slot holding the pointer it held before, the instance behind that
pointer is unchanged (same config, same lifecycle state), no previously
existing instance changes, and no instance allocated during the call (the
scratch instance) is in the slot afterwards. -/
theorem MeasureOutboundDelay_frame (env : Env) (config : RawConfig) (url : String)
    (w : World) (hwf : w.WF) :
    (MeasureOutboundDelay env config url w).1.coreInstance = w.coreInstance ∧
    (∀ i, w.coreInstance = some i →
      (MeasureOutboundDelay env config url w).1.instances[i]? = w.instances[i]? ∧
      (MeasureOutboundDelay env config url w).1.stateOf i = w.stateOf i) ∧
    (∀ j, j < w.instances.length →
      (MeasureOutboundDelay env config url w).1.instances[j]? = w.instances[j]?) ∧
    (∀ j, w.instances.length ≤ j →
      (MeasureOutboundDelay env config url w).1.coreInstance ≠ some j) := by
  obtain ⟨hc, _, hi⟩ := MeasureOutboundDelay_world env config url w
  have hold : ∀ j, j < w.instances.length →
      (MeasureOutboundDelay env config url w).1.instances[j]? = w.instances[j]? := by
    intro j hj
    rcases hi with h | ⟨pb, h⟩
    · rw [h]
    · rw [h, setStateAt_getElem?_ne _ _ _ _ (Nat.ne_of_lt hj), List.getElem?_append_left hj]
  have hlt : ∀ i, w.coreInstance = some i → i < w.instances.length := by
    intro i h
    unfold World.WF at hwf
    rw [h] at hwf
    exact hwf
  refine ⟨hc, ?_, hold, ?_⟩
  · intro i h
    have := hold i (hlt i h)
    exact ⟨this, by simp [World.stateOf, this]⟩
  · intro j hj h
    rw [hc] at h
    exact absurd (hlt j h) (Nat.not_lt.mpr hj)

/-- C9 at a concrete input: the slot holds Running instance 0; a probe in
which every stage succeeds builds scratch instance 1 and returns 35 ms, and
the slot still holds instance 0, still Running. -/
theorem MeasureOutboundDelay_frame_witness :
    worldRunning.WF ∧
    (MeasureOutboundDelay envOK [123, 125] "" worldRunning).2 = .returned (35, none) ∧
    (MeasureOutboundDelay envOK [123, 125] "" worldRunning).1.instances.length = 2 ∧
    (MeasureOutboundDelay envOK [123, 125] "" worldRunning).1.coreInstance = some 0 ∧
    (MeasureOutboundDelay envOK [123, 125] "" worldRunning).1.stateOf 0
      = some Lifecycle.Running ∧
    (MeasureOutboundDelay envOK [123, 125] "" worldRunning).1.coreInstance ≠ some 1 :=
  ⟨by decide, by decide, by decide,
   (MeasureOutboundDelay_frame envOK [123, 125] "" worldRunning (by decide)).1,
   ((MeasureOutboundDelay_frame envOK [123, 125] "" worldRunning (by decide)).2.1 0 rfl).2,
   (MeasureOutboundDelay_frame envOK [123, 125] "" worldRunning (by decide)).2.2.2 1
     (by decide)⟩

/-! ## The scratch instance of a probe -/

/-- C7, refuted at a concrete input: every stage succeeds and the GET is
answered with 204, so the probe returns 35 ms with a nil error; the scratch
cell it constructed (pointer 0) is Running when the call returns, not
Closed. -/
theorem MeasureOutboundDelay_scratch_left_running :
    (MeasureOutboundDelay envOK [123, 125] "" World.initial).2 = .returned (35, none) ∧
    (MeasureOutboundDelay envOK [123, 125] "" World.initial).1.instances.length = 1 ∧
    (MeasureOutboundDelay envOK [123, 125] "" World.initial).1.stateOf 0
      = some Lifecycle.Running ∧
    (MeasureOutboundDelay envOK [123, 125] "" World.initial).1.stateOf 0
      ≠ some Lifecycle.Closed := by
  decide

/-- C7 as amended: whenever `MeasureOutboundDelay` constructs a scratch
cell (decode, build, truncation and `core.New` succeed), the call never
closes it: on every exit path it exists when the call ends, built from the
reduced config and in the state in which its `Start` left it; when `Start`
succeeded that state is Running, not Closed. -/
theorem MeasureOutboundDelay_scratch_state (env : Env) (config : RawConfig) (url : String)
    (w : World) (conf : Nat) (pb pb1 : Config)
    (hd : env.DecodeJSONConfig config = .ok conf) (hb : env.Build conf = .ok pb)
    (hr : reduceForProbe pb = some pb1) (hn : env.New pb1 = none) :
    (MeasureOutboundDelay env config url w).1.instances.length = w.instances.length + 1 ∧
    (MeasureOutboundDelay env config url w).1.instances[w.instances.length]?
      = some ⟨pb1, stateAfterStart env (some ⟨pb1, Lifecycle.Constructed⟩)⟩ ∧
    (env.Start (some ⟨pb1, Lifecycle.Constructed⟩) = none →
      (MeasureOutboundDelay env config url w).1.stateOf w.instances.length
        = some Lifecycle.Running ∧
      (MeasureOutboundDelay env config url w).1.stateOf w.instances.length
        ≠ some Lifecycle.Closed) := by
  have hm := measureInstDelay_frame env (some w.instances.length) url
    (Instance.Start env w.instances.length (w.alloc pb1).1).1
  have hI : (MeasureOutboundDelay env config url w).1.instances =
      World.setStateAt (w.instances ++ [⟨pb1, Lifecycle.Constructed⟩]) w.instances.length
        (stateAfterStart env (some ⟨pb1, Lifecycle.Constructed⟩)) := by
    simp only [MeasureOutboundDelay, hd, hb, hr, hn]
    rw [show (w.alloc pb1).2 = w.instances.length from rfl, hm.2.1, Start_world,
      alloc_getElem?_new]
    rfl
  refine ⟨by rw [hI, setStateAt_length]; simp, by rw [hI, setStateAt_getElem?_self]; simp, ?_⟩
  intro hs
  simp [World.stateOf, hI, setStateAt_getElem?_self, stateAfterStart, hs]

/-- C7 as amended, at a concrete input: the GET is answered with 404, the
probe returns -1 with an error, and the scratch instance is still Running. -/
theorem MeasureOutboundDelay_scratch_state_witness :
    (MeasureOutboundDelay envNotFound [123, 125] "http://example.com/" World.initial).2
      = .returned (-1, some "status != 20x: 404 Not Found") ∧
    (MeasureOutboundDelay envNotFound [123, 125] "http://example.com/" World.initial).1.stateOf 0
      = some Lifecycle.Running ∧
    (MeasureOutboundDelay envNotFound [123, 125] "http://example.com/" World.initial).1.stateOf 0
      ≠ some Lifecycle.Closed :=
  ⟨by decide,
   (MeasureOutboundDelay_scratch_state envNotFound [123, 125] "http://example.com/"
      World.initial 0 sampleConfig
      { sampleConfig with Inbound := [], App := ⟨sampleConfig.App.backing, 5⟩ }
      rfl rfl rfl rfl).2.2 rfl⟩

/-! ## The reduced config -/

/-- C8, refuted at a concrete input: for the documented order with no
optional subsystem the reduced application list is log, dispatcher, inbound
manager, outbound manager, router; DNS is not in it. -/
theorem reduceForProbe_drops_dns :
    sampleConfig.App.elems = emissionOrder false false false ∧
    (reduceForProbe sampleConfig).map (fun r => r.App.elems)
      = some [AppKind.log, AppKind.dispatcher, AppKind.inboundManager,
          AppKind.outboundManager, AppKind.router] ∧
    ¬ ∃ r, reduceForProbe sampleConfig = some r ∧ AppKind.dns ∈ r.App.elems := by
  refine ⟨by decide, by decide, ?_⟩
  rintro ⟨r, hr, hmem⟩
  have h : reduceForProbe sampleConfig
      = some { sampleConfig with Inbound := [], App := ⟨sampleConfig.App.backing, 5⟩ } := rfl
  rw [h] at hr
  cases hr
  revert hmem
  decide

/-- C8 as amended: for every structured config whose application list follows
the documented order, the truncation succeeds and the reduced config has an
empty inbound list, the same outbounds, and an application list equal to the
first five entries of the original in their original order.  That list always
contains log, dispatcher, inbound manager and outbound manager and never DNS
or policy; it contains router exactly when neither fakeDNS nor stats is
emitted, fakeDNS exactly when fakeDNS is emitted, and stats exactly when stats
is emitted and fakeDNS is not. -/
theorem reduceForProbe_emissionOrder (cfg : Config) (f s p : Bool)
    (h : cfg.App.elems = emissionOrder f s p) :
    ∃ r, reduceForProbe cfg = some r ∧
      r.Inbound = [] ∧ r.Outbound = cfg.Outbound ∧
      r.App.elems = cfg.App.elems.take 5 ∧
      (AppKind.log ∈ r.App.elems ∧ AppKind.dispatcher ∈ r.App.elems ∧
        AppKind.inboundManager ∈ r.App.elems ∧ AppKind.outboundManager ∈ r.App.elems) ∧
      (AppKind.dns ∉ r.App.elems ∧ AppKind.policy ∉ r.App.elems) ∧
      (AppKind.router ∈ r.App.elems ↔ (f = false ∧ s = false)) ∧
      (AppKind.fakeDNS ∈ r.App.elems ↔ f = true) ∧
      (AppKind.stats ∈ r.App.elems ↔ (f = false ∧ s = true)) := by
  have hlen : 6 ≤ cfg.App.elems.length := by
    rw [h]
    cases f <;> cases s <;> cases p <;> decide
  have hmin : 6 ≤ min cfg.App.len cfg.App.backing.length := by
    simpa [Slice.elems, List.length_take] using hlen
  have hcap : 5 ≤ cfg.App.cap := by
    unfold Slice.cap
    omega
  have hl : 5 ≤ cfg.App.len := by omega
  have htake : cfg.App.backing.take 5 = cfg.App.elems.take 5 := by
    unfold Slice.elems
    rw [List.take_take, Nat.min_eq_left hl]
  refine ⟨{ cfg with Inbound := [], App := ⟨cfg.App.backing, 5⟩ }, ?_, rfl, rfl, htake, ?_⟩
  · simp [reduceForProbe, Slice.sliceTo, hcap]
  · show (_ ∈ cfg.App.backing.take 5 ∧ _ ∈ cfg.App.backing.take 5 ∧
        _ ∈ cfg.App.backing.take 5 ∧ _ ∈ cfg.App.backing.take 5) ∧
      (_ ∉ cfg.App.backing.take 5 ∧ _ ∉ cfg.App.backing.take 5) ∧
      (_ ∈ cfg.App.backing.take 5 ↔ _) ∧ (_ ∈ cfg.App.backing.take 5 ↔ _) ∧
      (_ ∈ cfg.App.backing.take 5 ↔ _)
    rw [htake, h]
    cases f <;> cases s <;> cases p <;> decide

/-- C8 as amended, at a concrete input: fakeDNS and stats are both emitted;
the reduced list is fakeDNS, log, dispatcher, inbound manager, outbound
manager. -/
theorem reduceForProbe_emissionOrder_witness :
    (Slice.ofList (emissionOrder true true false)).elems = emissionOrder true true false ∧
    ∃ r, reduceForProbe ⟨["in"], ["out"], Slice.ofList (emissionOrder true true false)⟩
        = some r ∧
      r.Inbound = [] ∧ r.Outbound = ["out"] ∧
      r.App.elems = (Slice.ofList (emissionOrder true true false)).elems.take 5 ∧
      (AppKind.log ∈ r.App.elems ∧ AppKind.dispatcher ∈ r.App.elems ∧
        AppKind.inboundManager ∈ r.App.elems ∧ AppKind.outboundManager ∈ r.App.elems) ∧
      (AppKind.dns ∉ r.App.elems ∧ AppKind.policy ∉ r.App.elems) ∧
      (AppKind.router ∈ r.App.elems ↔ (true = false ∧ true = false)) ∧
      (AppKind.fakeDNS ∈ r.App.elems ↔ true = true) ∧
      (AppKind.stats ∈ r.App.elems ↔ (true = false ∧ true = true)) :=
  ⟨by decide,
   reduceForProbe_emissionOrder
     ⟨["in"], ["out"], Slice.ofList (emissionOrder true true false)⟩ true true false
     (by decide)⟩

/-! ## Evaluations at the inputs on which the code departs from the contract -/

/-- C1, the code at the failing input: the instance is constructed and its
`Start` fails with "address already in use"; `StartXray` logs the error and
returns nil. -/
theorem StartXray_start_error_dropped :
    envStartFails.Start (some ⟨sampleConfig, Lifecycle.Constructed⟩)
      = some "address already in use" ∧
    (StartXray envStartFails [123, 125] (some 7) World.initial).1.logged
      = [(7, "Start XRay error: address already in use")] ∧
    (StartXray envStartFails [123, 125] (some 7) World.initial).2 = .returned none := by
  decide

/-- C10, the code at the failing input: the document decodes and `Build`
fails; `StartXray` returns the build error and never calls the logger. -/
theorem StartXray_build_error_not_logged :
    (StartXray envBuildFails [123, 125] (some 7) World.initial).2
      = .returned (some "unknown outbound protocol") ∧
    (StartXray envBuildFails [123, 125] (some 7) World.initial).1.logged = [] := by
  decide

/-- C4, the code at the failing input: the built config has four
application entries in a slice of capacity four; `pbConfig.App[:5]` panics
and `MeasureOutboundDelay` returns nothing. -/
theorem MeasureOutboundDelay_panics_on_short_app :
    (∃ c, envShortApp.Build 0 = .ok c ∧ c.App.elems.length = 4 ∧ c.App.cap = 4) ∧
    (MeasureOutboundDelay envShortApp [123, 125] "" World.initial).2
      = .panicked "slice bounds out of range [:5]" :=
  ⟨⟨_, rfl, by decide, by decide⟩, by decide⟩

/-- C5, the code at the failing input: the instance is non-nil and the URL
":" does not parse; the nil request reaches `c.Do` and `measureInstDelay`
panics instead of returning (-1, err). -/
theorem measureInstDelay_panics_on_bad_url :
    worldRunning.instances[0]? = some ⟨sampleConfig, Lifecycle.Running⟩ ∧
    envBadURL.NewRequest ":" = none ∧
    (measureInstDelay envBadURL (some 0) ":" worldRunning).2
      = .panicked "invalid memory address or nil pointer dereference" := by
  decide

/-- C6, the code at the failing input: the scratch instance is constructed
and its `Start` fails; `MeasureOutboundDelay` discards the error, sends the
GET through the instance and returns 35 ms with a nil error. -/
theorem MeasureOutboundDelay_start_error_dropped :
    envStartFails.Start
        (some ⟨{ sampleConfig with Inbound := [], App := ⟨sampleConfig.App.backing, 5⟩ },
          Lifecycle.Constructed⟩)
      = some "address already in use" ∧
    (MeasureOutboundDelay envStartFails [123, 125] "" World.initial).1.requests
      = [(0, "https://www.google.com/generate_204")] ∧
    (MeasureOutboundDelay envStartFails [123, 125] "" World.initial).2
      = .returned (35, none) := by
  decide

/-! ## What the code does on the remaining paths -/

/-- The result of `StartXray`.  A build failure returns the build error.
With a logger that is not nil, a decode or construction failure returns
that stage's error, and once the instance is constructed nil is returned,
whatever its `Start` returned.  With the nil logger the call panics exactly
on the three paths that log: decode failure, construction failure and
`Start` failure. -/
theorem StartXray_result (env : Env) (config : RawConfig) (l : Nat) (w : World) :
    (∀ e, env.DecodeJSONConfig config = .error e →
      (StartXray env config (some l) w).2 = .returned (some e) ∧
      ∃ msg, (StartXray env config none w).2 = .panicked msg) ∧
    (∀ conf e logger, env.DecodeJSONConfig config = .ok conf → env.Build conf = .error e →
      (StartXray env config logger w).2 = .returned (some e)) ∧
    (∀ conf pb e, env.DecodeJSONConfig config = .ok conf → env.Build conf = .ok pb →
      env.New pb = some e →
      (StartXray env config (some l) w).2 = .returned (some e) ∧
      ∃ msg, (StartXray env config none w).2 = .panicked msg) ∧
    (∀ conf pb, env.DecodeJSONConfig config = .ok conf → env.Build conf = .ok pb →
      env.New pb = none → (StartXray env config (some l) w).2 = .returned none) ∧
    (∀ conf pb, env.DecodeJSONConfig config = .ok conf → env.Build conf = .ok pb →
      env.New pb = none →
      (env.Start (some ⟨pb, Lifecycle.Constructed⟩) = none →
        (StartXray env config none w).2 = .returned none) ∧
      (env.Start (some ⟨pb, Lifecycle.Constructed⟩) ≠ none →
        ∃ msg, (StartXray env config none w).2 = .panicked msg)) := by
  refine ⟨?_, ?_, ?_, ?_, ?_⟩
  · intro e hd
    simp [StartXray, hd, World.LogInput]
  · intro conf e logger hd hb
    simp [StartXray, hd, hb]
  · intro conf pb e hd hb hn
    simp [StartXray, hd, hb, hn, World.LogInput]
  · intro conf pb hd hb hn
    cases hs : env.Start (some ⟨pb, Lifecycle.Constructed⟩) <;>
    simp [StartXray, hd, hb, hn, Instance.Start, World.alloc, hs, World.LogInput]
  · intro conf pb hd hb hn
    cases hs : env.Start (some ⟨pb, Lifecycle.Constructed⟩) <;>
    simp [StartXray, hd, hb, hn, Instance.Start, World.alloc, hs, World.LogInput]

/-- The `StartXray` result at a concrete input: construction fails with
"duplicate tag" and that error is returned. -/
theorem StartXray_result_witness :
    (StartXray envNewFails [123, 125] (some 7) World.initial).2
      = .returned (some "duplicate tag") :=
  ((StartXray_result envNewFails [123, 125] 7 World.initial).2.2.1 0 sampleConfig
    "duplicate tag" rfl rfl rfl).1

/-- The logger calls of `StartXray` with a logger that is not nil: one call,
the stage's label followed by the error text, when decoding, construction or
`Start` fails; no call when building fails or when every stage succeeds. -/
theorem StartXray_logged (env : Env) (config : RawConfig) (l : Nat) (w : World) :
    (∀ e, env.DecodeJSONConfig config = .error e →
      (StartXray env config (some l) w).1.logged
        = w.logged ++ [(l, "Config load error: " ++ e)]) ∧
    (∀ conf e, env.DecodeJSONConfig config = .ok conf → env.Build conf = .error e →
      (StartXray env config (some l) w).1.logged = w.logged) ∧
    (∀ conf pb e, env.DecodeJSONConfig config = .ok conf → env.Build conf = .ok pb →
      env.New pb = some e →
      (StartXray env config (some l) w).1.logged
        = w.logged ++ [(l, "Create XRay error: " ++ e)]) ∧
    (∀ conf pb e, env.DecodeJSONConfig config = .ok conf → env.Build conf = .ok pb →
      env.New pb = none → env.Start (some ⟨pb, Lifecycle.Constructed⟩) = some e →
      (StartXray env config (some l) w).1.logged
        = w.logged ++ [(l, "Start XRay error: " ++ e)]) ∧
    (∀ conf pb, env.DecodeJSONConfig config = .ok conf → env.Build conf = .ok pb →
      env.New pb = none → env.Start (some ⟨pb, Lifecycle.Constructed⟩) = none →
      (StartXray env config (some l) w).1.logged = w.logged) := by
  refine ⟨?_, ?_, ?_, ?_, ?_⟩
  · intro e hd
    simp [StartXray, hd, World.LogInput]
  · intro conf e hd hb
    simp [StartXray, hd, hb]
  · intro conf pb e hd hb hn
    simp [StartXray, hd, hb, hn, World.LogInput]
  · intro conf pb e hd hb hn hs
    simp [StartXray, hd, hb, hn, Instance.Start, World.alloc, hs, World.setState,
      World.LogInput]
  · intro conf pb hd hb hn hs
    simp [StartXray, hd, hb, hn, Instance.Start, World.alloc, hs, World.setState]

/-- The logger calls of `StartXray` at a concrete input: the document does
not decode and the logger receives one message. -/
theorem StartXray_logged_witness :
    (StartXray envDecodeFails [123] (some 7) World.initial).1.logged
      = World.initial.logged ++ [(7, "Config load error: " ++ "invalid character")] :=
  (StartXray_logged envDecodeFails [123] 7 World.initial).1 "invalid character" rfl

/-- The result of `measureInstDelay` for a non-nil instance and a URL from
which a request can be built (the default URL standing in for the empty
one), when the clock does not go backwards: exactly one GET is sent; a
response with status 200 or 204 gives the elapsed whole milliseconds, which
are non-negative, and a nil error; any other status gives -1 and an error
naming the status; a transport error gives -1 and that error.  In each case
the error is non-nil exactly when the milliseconds value is -1. -/
theorem measureInstDelay_spec (env : Env) (i : Nat) (url req : String) (w : World)
    (hreq : env.NewRequest
      (if url.length ≤ 0 then "https://www.google.com/generate_204" else url) = some req)
    (hclock : w.now ≤ (env.Do w.instances[i]? req w.now).2) :
    (measureInstDelay env (some i) url w).1.requests = w.requests ++ [(i, req)] ∧
    (∀ resp, (env.Do w.instances[i]? req w.now).1 = .ok resp →
      (resp.StatusCode = 200 ∨ resp.StatusCode = 204) →
      (measureInstDelay env (some i) url w).2
        = .returned (sinceMilliseconds w.now (env.Do w.instances[i]? req w.now).2, none) ∧
      0 ≤ sinceMilliseconds w.now (env.Do w.instances[i]? req w.now).2) ∧
    (∀ resp, (env.Do w.instances[i]? req w.now).1 = .ok resp →
      resp.StatusCode ≠ 200 → resp.StatusCode ≠ 204 →
      (measureInstDelay env (some i) url w).2
        = .returned (-1, some ("status != 20x: " ++ resp.Status))) ∧
    (∀ e, (env.Do w.instances[i]? req w.now).1 = .error e →
      (measureInstDelay env (some i) url w).2 = .returned (-1, some e)) ∧
    (∃ ms err, (measureInstDelay env (some i) url w).2 = .returned (ms, err) ∧
      (err ≠ none ↔ ms = -1)) := by
  have hpos : 0 ≤ sinceMilliseconds w.now (env.Do w.instances[i]? req w.now).2 := by
    unfold sinceMilliseconds
    exact Int.tdiv_nonneg (by omega) (by decide)
  have hne : sinceMilliseconds w.now (env.Do w.instances[i]? req w.now).2 ≠ -1 := by omega
  refine ⟨?_, ?_, ?_, ?_, ?_⟩
  · simp only [measureInstDelay, hreq]
    split
    · rfl
    · split <;> rfl
  · intro resp hres hst
    refine ⟨?_, hpos⟩
    simp only [measureInstDelay, hreq, hres]
    rw [if_neg (by omega)]
  · intro resp hres h1 h2
    simp only [measureInstDelay, hreq, hres]
    rw [if_pos ⟨h1, h2⟩]
  · intro e hres
    simp only [measureInstDelay, hreq, hres]
  · simp only [measureInstDelay, hreq]
    split
    · exact ⟨_, _, rfl, by simp⟩
    · split
      · exact ⟨_, _, rfl, by simp⟩
      · exact ⟨_, _, rfl, by simpa using hne⟩

/-- The result of `measureInstDelay` at a concrete input: the GET is answered
with 404 and the result is -1 with the status error. -/
theorem measureInstDelay_spec_witness :
    (measureInstDelay envNotFound (some 0) "http://example.com/" worldRunning).2
      = .returned (-1, some ("status != 20x: " ++ "404 Not Found")) :=
  (measureInstDelay_spec envNotFound 0 "http://example.com/" "http://example.com/"
      worldRunning (by decide) (by decide)).2.2.1
    ⟨404, "404 Not Found"⟩ rfl (by decide) (by decide)

/-- The early exits of `MeasureOutboundDelay`: when decoding, building or
construction fails the call returns -1 with that stage's error, sends no
request, constructs no instance and never calls the logger. -/
theorem MeasureOutboundDelay_early_failure (env : Env) (config : RawConfig) (url : String)
    (w : World) :
    (∀ e, env.DecodeJSONConfig config = .error e →
      MeasureOutboundDelay env config url w = (w, .returned (-1, some e))) ∧
    (∀ conf e, env.DecodeJSONConfig config = .ok conf → env.Build conf = .error e →
      MeasureOutboundDelay env config url w = (w, .returned (-1, some e))) ∧
    (∀ conf pb pb1 e, env.DecodeJSONConfig config = .ok conf → env.Build conf = .ok pb →
      reduceForProbe pb = some pb1 → env.New pb1 = some e →
      MeasureOutboundDelay env config url w = (w, .returned (-1, some e))) ∧
    (MeasureOutboundDelay env config url w).1.logged = w.logged := by
  refine ⟨?_, ?_, ?_, (MeasureOutboundDelay_world env config url w).2.1⟩
  · intro e hd
    simp [MeasureOutboundDelay, hd]
  · intro conf e hd hb
    simp [MeasureOutboundDelay, hd, hb]
  · intro conf pb pb1 e hd hb hr hn
    simp [MeasureOutboundDelay, hd, hb, hr, hn]

/-- The early exits of `MeasureOutboundDelay` at a concrete input: `Build`
fails and the world is left as it was. -/
theorem MeasureOutboundDelay_early_failure_witness :
    MeasureOutboundDelay envBuildFails [123, 125] "" worldRunning
      = (worldRunning, .returned (-1, some "unknown outbound protocol")) :=
  (MeasureOutboundDelay_early_failure envBuildFails [123, 125] "" worldRunning).2.1
    0 "unknown outbound protocol" rfl rfl

/-- When `MeasureOutboundDelay` returns: for a built config whose
application slice has capacity at least five and a URL from which a request
can be built, the call returns a (milliseconds, error) pair and does not
panic. -/
theorem MeasureOutboundDelay_returns (env : Env) (config : RawConfig) (url req : String)
    (w : World) (conf : Nat) (pb : Config)
    (hd : env.DecodeJSONConfig config = .ok conf) (hb : env.Build conf = .ok pb)
    (hcap : 5 ≤ pb.App.cap)
    (hreq : env.NewRequest
      (if url.length ≤ 0 then "https://www.google.com/generate_204" else url) = some req) :
    ∃ r, (MeasureOutboundDelay env config url w).2 = .returned r := by
  have hr : reduceForProbe pb
      = some { pb with Inbound := [], App := ⟨pb.App.backing, 5⟩ } := by
    simp [reduceForProbe, Slice.sliceTo, hcap]
  simp only [MeasureOutboundDelay, hd, hb, hr]
  split
  · exact ⟨_, rfl⟩
  · simp only [measureInstDelay, hreq]
    split
    · exact ⟨_, rfl⟩
    · split <;> exact ⟨_, rfl⟩

/-- A returning probe at a concrete input: six application entries and an
empty URL, replaced by the default one. -/
theorem MeasureOutboundDelay_returns_witness :
    5 ≤ sampleConfig.App.cap ∧
    ∃ r, (MeasureOutboundDelay envOK [123, 125] "" World.initial).2 = .returned r :=
  ⟨by decide,
   MeasureOutboundDelay_returns envOK [123, 125] "" "https://www.google.com/generate_204"
     World.initial 0 sampleConfig rfl rfl (by decide) (by decide)⟩

end XRay
